import Mathlib

/-
Verification of the Tarjuman compiler front end (lexical_analyser.c,
syntax_analyser.c, semantic_analyser.c, sematic_analyser.c) against its
natural-language specification.

The development shallowly embeds the three near-duplicate analysis phases:
  * definitions without a prefix model `semantic_analyser.c`,
  * definitions prefixed `m2_` model the `sematic_analyser.c` variant,
  * definitions prefixed `sx_` model `syntax_analyser.c`,
  * definitions prefixed `lex_` model `lexical_analyser.c`.
C machine integers are modelled by `Int` (no overflow occurs in the
relevant arithmetic), C strings by `String`, the global mutable registers
(token array, token position, symbol table, current scope, error counter)
by an explicit state record `St`.  Diagnostics are modelled as the ordered
list of (line, message) pairs written to stderr; the C error counter is the
length of that list.  Buffer truncation of over-long C strings (snprintf
into fixed buffers) and fgets line splitting beyond 511 bytes are not
modelled.
-/

/-- A token row as exchanged between the phases (struct Tok). -/
structure Tok where
  token : String
  lexeme : String
  line : Int
  deriving DecidableEq, Repr

/-- A symbol-table entry (struct Symb). -/
structure Symb where
  lexeme : String
  type : String
  scope : String
  array_size : Int
  deriving DecidableEq, Repr

/-- The process-wide mutable state of one analysis run: the loaded token
stream `toks` with cursor `pos`, the append-only symbol table `symtab`,
the current-scope register `cur_scope`, and the diagnostics written so far
(`errors`, one `(line, message)` pair per report; the C `error_count` is
its length). -/
structure St where
  toks : List Tok
  pos : Nat
  symtab : List Symb
  cur_scope : String
  errors : List (Int × String)
  deriving DecidableEq, Repr

/-- Internal type code TYPE_ERROR (#define TYPE_ERROR 0). -/
def TYPE_ERROR : Int := 0

/-- Internal type code TYPE_INT (#define TYPE_INT 1). -/
def TYPE_INT : Int := 1

/-- Internal type code TYPE_CHAR (#define TYPE_CHAR 2). -/
def TYPE_CHAR : Int := 2

/-- Symbol-table capacity (#define MAXSYM 4096). -/
def MAXSYM : Nat := 4096

/-- Token-stream capacity (#define MAXTOK 100000). -/
def MAXTOK : Nat := 100000

/-- The EOF sentinel fabricated by semantic_analyser.c (line 0). -/
def eofTok0 : Tok := ⟨"EOF", "", 0⟩

/-- The EOF sentinel fabricated by sematic_analyser.c and
syntax_analyser.c (line 999999). -/
def eofTok9 : Tok := ⟨"EOF", "", 999999⟩

/-- semantic_error: append one diagnostic (fprintf to stderr plus
error_count++). -/
def semantic_error (msg : String) (line : Int) (s : St) : St :=
  { s with errors := s.errors ++ [(line, msg)] }

/-- Length of the initial run of tokens whose line equals `line`; this is
how far the loop `while (pos < ntok && toks[pos].line == line) pos++;`
advances the cursor over the remaining tokens. -/
def skipCount (line : Int) : List Tok → Nat
  | [] => 0
  | t :: ts => if t.line = line then skipCount line ts + 1 else 0

/-- skip_line_tokens of semantic_analyser.c (same loop appears inline in
the two other variants): discard the rest of the current source line. -/
def skip_line_tokens (line : Int) (s : St) : St :=
  { s with pos := s.pos + skipCount line (s.toks.drop s.pos) }

/-- LA of semantic_analyser.c: current token, or an EOF sentinel with
line 0 past the end of the stream. -/
def LA (s : St) : Tok :=
  if s.pos < s.toks.length then s.toks.getD s.pos eofTok0 else eofTok0

/-- consume of semantic_analyser.c: return the current token and advance
the cursor when it is in range. -/
def consume (s : St) : Tok × St :=
  (LA s, if s.pos < s.toks.length then { s with pos := s.pos + 1 } else s)

/-- match of semantic_analyser.c: consume the current token when its kind
is the expected one, reporting it to the caller. -/
def matchTok (kind : String) (s : St) : Option Tok × St :=
  let t := LA s
  if t.token = kind then (some t, (consume s).2) else (none, s)

/-- syn_error of semantic_analyser.c: report a diagnostic at the
offending (lookahead) token's line — line 0 when past the end — and then
discard the rest of that line. -/
def syn_error (msg : String) (s : St) : St :=
  let t := if s.pos < s.toks.length then s.toks.getD s.pos eofTok0 else eofTok0
  skip_line_tokens t.line { s with errors := s.errors ++ [(t.line, msg)] }

/-- is_type_token. -/
def is_type_token (tk : String) : Bool :=
  tk = "VOID" || tk = "CHAR" || tk = "INT"

/-- norm_type_token: normalize a type-specifier token kind into the
symbol-table type string. -/
def norm_type_token (tk : String) : String :=
  if tk = "VOID" then "Void"
  else if tk = "CHAR" then "Char"
  else if tk = "INT" then "Int"
  else "?"

/-- str_to_type: symbol-table type string to internal type code. -/
def str_to_type (st : String) : Int :=
  if st = "Int" then TYPE_INT
  else if st = "Char" then TYPE_CHAR
  else TYPE_ERROR

/-- const_token_type: type code of a constant token. -/
def const_token_type (t : Tok) : Int :=
  if t.token = "INT_CONST" then TYPE_INT
  else if t.token = "CHAR_CONST" then TYPE_CHAR
  else TYPE_ERROR

/-- is_operator: the eight binary operator token kinds. -/
def is_operator (tk : String) : Bool :=
  tk = "PLUS" || tk = "MINUS" || tk = "STAR" || tk = "SLASH" ||
  tk = "GT" || tk = "LT" || tk = "EQ" || tk = "ASSIGN"

/-- The duplicate-declaration scan of add_symbol: does the table already
hold a symbol with this (name, scope) pair? -/
def has_dup (name scope : String) : List Symb → Bool
  | [] => false
  | y :: ys =>
    if y.lexeme = name ∧ y.scope = scope then true else has_dup name scope ys

/-- add_symbol of semantic_analyser.c: report a duplicate declaration and
insert nothing when the (name, scope) pair is already present; otherwise
append the new symbol — silently dropped when the table is full. -/
def add_symbol (name ty scope : String) (arrsz : Int) (line : Int) (s : St) : St :=
  if has_dup name scope s.symtab then
    semantic_error "Multiple declarations of same identifier." line s
  else if MAXSYM ≤ s.symtab.length then s
  else { s with symtab := s.symtab ++ [⟨name, ty, scope, arrsz⟩] }

/-- One linear scan of the symbol table for a (name, scope) match; first
match wins (the two for-loops of lookup_symbol). -/
def find_in_scope (name scope : String) : List Symb → Option Symb
  | [] => none
  | y :: ys =>
    if y.lexeme = name ∧ y.scope = scope then some y
    else find_in_scope name scope ys

/-- lookup_symbol: search the current scope first, then — only when that
fails — scope "Global"; none when neither scan matches. -/
def lookup_symbol (name : String) (s : St) : Option Symb :=
  match find_in_scope name s.cur_scope s.symtab with
  | some y => some y
  | none => find_in_scope name "Global" s.symtab

/-- apply_binary_op (identical in semantic_analyser.c and
sematic_analyser.c): result type of one binary application, reporting a
type mismatch unless an Error operand suppresses the diagnostic. -/
def apply_binary_op (op : String) (lhs_type rhs_type : Int) (line : Int) (s : St) :
    Int × St :=
  if op = "ASSIGN" then
    if lhs_type = TYPE_ERROR ∨ rhs_type = TYPE_ERROR then (TYPE_ERROR, s)
    else if lhs_type ≠ rhs_type then
      (TYPE_ERROR, semantic_error "Type mismatch in statement or expression." line s)
    else (lhs_type, s)
  else if op = "PLUS" ∨ op = "MINUS" ∨ op = "STAR" ∨ op = "SLASH" then
    if lhs_type = TYPE_ERROR ∨ rhs_type = TYPE_ERROR then (TYPE_ERROR, s)
    else if lhs_type ≠ rhs_type then
      (TYPE_ERROR, semantic_error "Type mismatch in statement or expression." line s)
    else (lhs_type, s)
  else if op = "LT" ∨ op = "GT" ∨ op = "EQ" then
    if lhs_type = TYPE_ERROR ∨ rhs_type = TYPE_ERROR then (TYPE_ERROR, s)
    else if lhs_type ≠ rhs_type then
      (TYPE_ERROR, semantic_error "Type mismatch in statement or expression." line s)
    else (TYPE_INT, s)
  else (TYPE_ERROR, s)

/-- The left-to-right fold of apply_binary_op performed by the operator
loop of expression_if_any once each right-hand operand's type has been
resolved: each list entry is one (operator kind, rhs type, operator line)
step of the flat chain. -/
def apply_chain (t : Int) (steps : List (String × Int × Int)) (s : St) : Int × St :=
  match steps with
  | [] => (t, s)
  | (op, rhs, line) :: rest =>
    let r := apply_binary_op op t rhs line s
    apply_chain r.1 rest r.2

/-- C atoi digit accumulation: value of the leading digit run. -/
def read_digits : List Char → Int → Int
  | [], acc => acc
  | c :: cs, acc =>
    if '0' ≤ c ∧ c ≤ '9' then read_digits cs (acc * 10 + ((c.toNat : Int) - 48))
    else acc

/-- C whitespace (isspace). -/
def is_c_space (c : Char) : Bool :=
  c = ' ' || c = '\t' || c = '\n' || c = '\r' || c = '\x0b' || c = '\x0c'

/-- C atoi: skip whitespace, optional sign, value of the digit run (0 when
there are no digits). -/
def atoi (str : String) : Int :=
  match str.toList.dropWhile is_c_space with
  | '-' :: rest => - read_digits rest 0
  | '+' :: rest => read_digits rest 0
  | cs => read_digits cs 0

/-- type_specifier: consume VOID | CHAR | INT and report the normalized
type string, else leave the state unchanged. -/
def type_specifier (s : St) : Option String × St :=
  let t := LA s
  if is_type_token t.token then (some (norm_type_token t.token), (consume s).2)
  else (none, s)

/-- array_opt of semantic_analyser.c: empty (size 0) or a bracketed
optional INT_CONST size. -/
def array_opt (s : St) : Bool × Int × St :=
  let t := LA s
  if t.token = "LBRACKET" then
    let s1 := (consume s).2
    let t1 := LA s1
    let r := if t1.token = "INT_CONST" then (atoi t1.lexeme, (consume s1).2) else (0, s1)
    match matchTok "RBRACKET" r.2 with
    | (none, s2) => (true, r.1, syn_error "Right bracket expected" s2)
    | (some _, s2) => (true, r.1, s2)
  else (false, 0, s)

/-- init_opt of semantic_analyser.c: optional '=' constant initializer,
type checked against the declared type (the line parameter of the C
function is passed but never read). -/
def init_opt (typestr : String) (_line : Int) (s : St) : Bool × St :=
  let t := LA s
  if t.token = "ASSIGN" then
    let s1 := (consume s).2
    let t1 := LA s1
    if t1.token ≠ "INT_CONST" ∧ t1.token ≠ "CHAR_CONST" then
      (false, syn_error "Identifier or integer constant expected" s1)
    else
      let ctype := const_token_type t1
      let dtype := str_to_type typestr
      let s2 :=
        if ctype ≠ TYPE_ERROR ∧ dtype ≠ TYPE_ERROR ∧ ctype ≠ dtype then
          semantic_error "Type mismatch in statement or expression." t1.line s1
        else s1
      (true, (consume s2).2)
  else (false, s)

/-- init_declarator: IDENTIFIER array_opt init_opt, then a symbol-table
insertion in the current scope. -/
def init_declarator (typestr : String) (s : St) : St :=
  match matchTok "IDENTIFIER" s with
  | (none, s1) => syn_error "Identifier expected" s1
  | (some id, s1) =>
    let r := array_opt s1
    let r2 := init_opt typestr id.line r.2.2
    add_symbol id.lexeme typestr r2.2.cur_scope r.2.1 id.line r2.2

/-- The comma loop of init_declarator_list. -/
def idl_loop (fuel : Nat) (typestr : String) (s : St) : St :=
  match fuel with
  | 0 => s
  | fuel + 1 =>
    match matchTok "COMMA" s with
    | (none, s1) => s1
    | (some _, s1) => idl_loop fuel typestr (init_declarator typestr s1)

/-- init_declarator_list: init_declarator { ',' init_declarator }. -/
def init_declarator_list (fuel : Nat) (typestr : String) (s : St) : St :=
  idl_loop fuel typestr (init_declarator typestr s)

/-- declaration: init_declarator_list ';'. -/
def declaration (fuel : Nat) (typestr : String) (s : St) : St :=
  let s1 := init_declarator_list fuel typestr s
  match matchTok "SEMICOLON" s1 with
  | (none, s2) => syn_error "Semicolon expected" s2
  | (some _, s2) => s2

/-- global_decl_list: repeated global declarations, stopping (with a
one-token rollback) when the type specifier is followed by MAIN. -/
def global_decl_list (fuel : Nat) (s : St) : St :=
  match fuel with
  | 0 => s
  | fuel + 1 =>
    let t := LA s
    if is_type_token t.token then
      let ty := norm_type_token t.token
      let s1 := (consume s).2
      let t2 := LA s1
      if t2.token = "MAIN" then { s1 with pos := s1.pos - 1 }
      else global_decl_list fuel (declaration fuel ty s1)
    else s

/-- The operator loop of expression_if_any: while the lookahead is a
binary operator, consume it, resolve the right operand's type, and fold
with apply_binary_op. -/
def expr_loop (fuel : Nat) (cur_type : Int) (s : St) : Int × St :=
  match fuel with
  | 0 => (cur_type, s)
  | fuel + 1 =>
    let op := LA s
    if is_operator op.token then
      let s1 := (consume s).2
      let b := LA s1
      if b.token = "IDENTIFIER" then
        let r :=
          match lookup_symbol b.lexeme s1 with
          | none => (TYPE_ERROR, semantic_error "Undeclared identifier." b.line s1)
          | some y => (str_to_type y.type, s1)
        let s2 := (consume r.2).2
        let r2 := apply_binary_op op.token cur_type r.1 op.line s2
        expr_loop fuel r2.1 r2.2
      else if b.token = "INT_CONST" ∨ b.token = "CHAR_CONST" then
        let s2 := (consume s1).2
        let r2 := apply_binary_op op.token cur_type (const_token_type b) op.line s2
        expr_loop fuel r2.1 r2.2
      else (cur_type, syn_error "Identifier or integer constant expected" s1)
    else (cur_type, s)

/-- expression_if_any: parse the optional flat operand/operator chain,
returning its evaluated type code, or none when no expression starts
here. -/
def expression_if_any (fuel : Nat) (s : St) : Option Int × St :=
  let a := LA s
  if a.token = "IDENTIFIER" then
    let r :=
      match lookup_symbol a.lexeme s with
      | none => (TYPE_ERROR, semantic_error "Undeclared identifier." a.line s)
      | some y => (str_to_type y.type, s)
    let s1 := (consume r.2).2
    let r2 := expr_loop fuel r.1 s1
    (some r2.1, r2.2)
  else if a.token = "INT_CONST" ∨ a.token = "CHAR_CONST" then
    let s1 := (consume s).2
    let r2 := expr_loop fuel (const_token_type a) s1
    (some r2.1, r2.2)
  else (none, s)

/-- The condition type check shared (inline, textually identical) by
if_stmt, while_stmt and the middle clause of for_stmt: a successfully
evaluated condition type that is neither Int nor Error is reported at the
current lookahead line. -/
def cond_type_check (cond_type : Int) (s : St) : St :=
  if cond_type ≠ TYPE_INT ∧ cond_type ≠ TYPE_ERROR then
    semantic_error "Integer expected in conditional expression." (LA s).line s
  else s

/-- expr_stmt: expression ';' | ';'. -/
def expr_stmt (fuel : Nat) (s : St) : St :=
  if (LA s).token = "SEMICOLON" then (consume s).2
  else
    let s1 :=
      match expression_if_any fuel s with
      | (none, sa) => syn_error "Identifier or integer constant expected" sa
      | (some _, sa) => sa
    match matchTok "SEMICOLON" s1 with
    | (none, sa) => syn_error "Semicolon expected" sa
    | (some _, sa) => sa

mutual

/-- statement dispatcher of semantic_analyser.c. -/
def statement (fuel : Nat) (s : St) : St :=
  match fuel with
  | 0 => s
  | fuel + 1 =>
    let t := LA s
    if is_type_token t.token then
      let r := type_specifier s
      declaration fuel (r.1.getD "?") r.2
    else if t.token = "IF" then if_stmt fuel s
    else if t.token = "WHILE" then while_stmt fuel s
    else if t.token = "FOR" then for_stmt fuel s
    else if t.token = "LBRACE" then block fuel s
    else expr_stmt fuel s

/-- if_stmt: IF '(' expression ')' block [ ELSE block ], with the integer
condition check. -/
def if_stmt (fuel : Nat) (s : St) : St :=
  match fuel with
  | 0 => s
  | fuel + 1 =>
    match matchTok "IF" s with
    | (none, s1) => syn_error "IF expected" s1
    | (some _, s1) =>
      let s2 :=
        match matchTok "LPAREN" s1 with
        | (none, sa) => syn_error "Opening parenthesis missing" sa
        | (some _, sa) => sa
      let s3 :=
        match expression_if_any fuel s2 with
        | (none, sa) => syn_error "Identifier or integer constant expected" sa
        | (some ct, sa) => cond_type_check ct sa
      let s4 :=
        match matchTok "RPAREN" s3 with
        | (none, sa) => syn_error "Closing parenthesis missing" sa
        | (some _, sa) => sa
      let s5 := block fuel s4
      match matchTok "ELSE" s5 with
      | (none, s6) => s6
      | (some _, s6) => block fuel s6

/-- while_stmt: WHILE '(' expression ')' block, with the integer
condition check. -/
def while_stmt (fuel : Nat) (s : St) : St :=
  match fuel with
  | 0 => s
  | fuel + 1 =>
    match matchTok "WHILE" s with
    | (none, s1) => syn_error "WHILE expected" s1
    | (some _, s1) =>
      let s2 :=
        match matchTok "LPAREN" s1 with
        | (none, sa) => syn_error "Opening parenthesis missing" sa
        | (some _, sa) => sa
      let s3 :=
        match expression_if_any fuel s2 with
        | (none, sa) => syn_error "Identifier or integer constant expected" sa
        | (some ct, sa) => cond_type_check ct sa
      let s4 :=
        match matchTok "RPAREN" s3 with
        | (none, sa) => syn_error "Closing parenthesis missing" sa
        | (some _, sa) => sa
      block fuel s4

/-- for_stmt: FOR '(' expression ';' expression ';' expression ')'
statement; only the middle expression gets the integer condition check. -/
def for_stmt (fuel : Nat) (s : St) : St :=
  match fuel with
  | 0 => s
  | fuel + 1 =>
    match matchTok "FOR" s with
    | (none, s1) => syn_error "FOR expected" s1
    | (some _, s1) =>
      let s2 :=
        match matchTok "LPAREN" s1 with
        | (none, sa) => syn_error "Opening parenthesis missing" sa
        | (some _, sa) => sa
      let s3 :=
        match expression_if_any fuel s2 with
        | (none, sa) => syn_error "Identifier or integer constant expected" sa
        | (some _, sa) => sa
      let s4 :=
        match matchTok "SEMICOLON" s3 with
        | (none, sa) => syn_error "Semicolon expected" sa
        | (some _, sa) => sa
      let s5 :=
        match expression_if_any fuel s4 with
        | (none, sa) => syn_error "Identifier or integer constant expected" sa
        | (some ct, sa) => cond_type_check ct sa
      let s6 :=
        match matchTok "SEMICOLON" s5 with
        | (none, sa) => syn_error "Semicolon expected" sa
        | (some _, sa) => sa
      let s7 :=
        match expression_if_any fuel s6 with
        | (none, sa) => syn_error "Identifier or integer constant expected" sa
        | (some _, sa) => sa
      let s8 :=
        match matchTok "RPAREN" s7 with
        | (none, sa) => syn_error "Closing parenthesis missing" sa
        | (some _, sa) => sa
      statement fuel s8

/-- block: '{' stmt_list_opt '}'. -/
def block (fuel : Nat) (s : St) : St :=
  match fuel with
  | 0 => s
  | fuel + 1 =>
    match matchTok "LBRACE" s with
    | (none, s1) => syn_error "\x7b expected" s1
    | (some _, s1) =>
      let s2 := stmt_list_opt fuel s1
      match matchTok "RBRACE" s2 with
      | (none, s3) => syn_error "\x7d missing" s3
      | (some _, s3) => s3

/-- stmt_list_opt: statements until RBRACE or EOF. -/
def stmt_list_opt (fuel : Nat) (s : St) : St :=
  match fuel with
  | 0 => s
  | fuel + 1 =>
    let t := LA s
    if t.token = "RBRACE" ∨ t.token = "EOF" then s
    else stmt_list_opt fuel (statement fuel s)

end

/-- The parameter-list loop of function_def in semantic_analyser.c
(breaks on a failed type specifier or identifier). -/
def param_loop (fuel : Nat) (s : St) : St :=
  match fuel with
  | 0 => s
  | fuel + 1 =>
    match type_specifier s with
    | (none, s1) => syn_error "Any keyword expected" s1
    | (some pty, s1) =>
      match matchTok "IDENTIFIER" s1 with
      | (none, s2) => syn_error "Identifier expected" s2
      | (some pid, s2) =>
        let s3 := add_symbol pid.lexeme pty "Main" 0 pid.line s2
        match matchTok "COMMA" s3 with
        | (none, s4) => s4
        | (some _, s4) => param_loop fuel s4

/-- function_def of semantic_analyser.c: after matching MAIN, insert the
main Function symbol in scope Global, switch the scope register to Main,
parse the parameters and the body block, and restore scope Global (the
C ret_type parameter is never read). -/
def function_def (fuel : Nat) (_ret_type : String) (s : St) : St :=
  match matchTok "MAIN" s with
  | (none, s1) => syn_error "MAIN expected" s1
  | (some id, s1) =>
    let s2 := add_symbol "main" "Function" "Global" 0 id.line s1
    let s3 := { s2 with cur_scope := "Main" }
    let s4 :=
      match matchTok "LPAREN" s3 with
      | (none, sa) => syn_error "Opening parenthesis missing" sa
      | (some _, sa) => sa
    let t := LA s4
    let s5 :=
      if t.token = "VOID" then (consume s4).2
      else if is_type_token t.token then param_loop fuel s4
      else s4
    let s6 :=
      match matchTok "RPAREN" s5 with
      | (none, sa) => syn_error "Closing parenthesis missing" sa
      | (some _, sa) => sa
    let s7 := block fuel s6
    { s7 with cur_scope := "Global" }

/-- program: global_decl_list function_def. -/
def program (fuel : Nat) (s : St) : St :=
  let s1 := global_decl_list fuel s
  match type_specifier s1 with
  | (none, s2) => syn_error "Any keyword expected" s2
  | (some rty, s2) => function_def fuel rty s2

/-- Initial state for a run of the parser on a loaded token stream. -/
def initSt (ts : List Tok) : St :=
  { toks := ts, pos := 0, symtab := [], cur_scope := "Global", errors := [] }

/-- LA of sematic_analyser.c: EOF sentinel line is 999999. -/
def m2_LA (s : St) : Tok :=
  if s.pos < s.toks.length then s.toks.getD s.pos eofTok9 else eofTok9

/-- consume of sematic_analyser.c. -/
def m2_consume (s : St) : Tok × St :=
  (m2_LA s, if s.pos < s.toks.length then { s with pos := s.pos + 1 } else s)

/-- match of sematic_analyser.c. -/
def m2_matchTok (kind : String) (s : St) : Option Tok × St :=
  let t := m2_LA s
  if t.token = kind then (some t, (m2_consume s).2) else (none, s)

/-- syn_error of sematic_analyser.c: diagnostic at the lookahead line
(999999 past the end), then discard the rest of that line. -/
def m2_syn_error (msg : String) (s : St) : St :=
  let t := if s.pos < s.toks.length then s.toks.getD s.pos eofTok9 else eofTok9
  skip_line_tokens t.line { s with errors := s.errors ++ [(t.line, msg)] }

/-- add_symbol of sematic_analyser.c: the capacity check comes first; the
duplicate diagnostic is tagged with the line of the previously consumed
token (0 at position 0). -/
def m2_add_symbol (name ty scope : String) (arrsz : Int) (s : St) : St :=
  if MAXSYM ≤ s.symtab.length then s
  else if has_dup name scope s.symtab then
    let line := if 0 < s.pos then (s.toks.getD (s.pos - 1) eofTok9).line else 0
    semantic_error "Multiple declarations of same identifier." line s
  else { s with symtab := s.symtab ++ [⟨name, ty, scope, arrsz⟩] }

/-- type_specifier of sematic_analyser.c. -/
def m2_type_specifier (s : St) : Option String × St :=
  let t := m2_LA s
  if is_type_token t.token then (some (norm_type_token t.token), (m2_consume s).2)
  else (none, s)

/-- array_opt of sematic_analyser.c (the caller's size variable starts at
0 and is written only when a bracket is present, so the no-bracket result
is 0). -/
def m2_array_opt (s : St) : Bool × Int × St :=
  match m2_matchTok "LBRACKET" s with
  | (none, s1) => (false, 0, s1)
  | (some _, s1) =>
    let r :=
      match m2_matchTok "INT_CONST" s1 with
      | (none, sa) => (0, sa)
      | (some num, sa) => (atoi num.lexeme, sa)
    match m2_matchTok "RBRACKET" r.2 with
    | (none, s2) => (true, r.1, m2_syn_error "Right bracket expected" s2)
    | (some _, s2) => (true, r.1, s2)

/-- init_opt of sematic_analyser.c: no type check of the initializer. -/
def m2_init_opt (s : St) : Bool × St :=
  match m2_matchTok "ASSIGN" s with
  | (none, s1) => (false, s1)
  | (some _, s1) =>
    let t := m2_LA s1
    if t.token = "INT_CONST" ∨ t.token = "CHAR_CONST" then (true, (m2_consume s1).2)
    else (true, m2_syn_error "Identifier or integer constant expected" s1)

/-- init_declarator of sematic_analyser.c. -/
def m2_init_declarator (typestr : String) (s : St) : St :=
  match m2_matchTok "IDENTIFIER" s with
  | (none, s1) => m2_syn_error "Identifier expected" s1
  | (some id, s1) =>
    let r := m2_array_opt s1
    let r2 := m2_init_opt r.2.2
    m2_add_symbol id.lexeme typestr r2.2.cur_scope r.2.1 r2.2

/-- The comma loop of init_declarator_list (sematic variant). -/
def m2_idl_loop (fuel : Nat) (typestr : String) (s : St) : St :=
  match fuel with
  | 0 => s
  | fuel + 1 =>
    match m2_matchTok "COMMA" s with
    | (none, s1) => s1
    | (some _, s1) => m2_idl_loop fuel typestr (m2_init_declarator typestr s1)

/-- init_declarator_list (sematic variant). -/
def m2_init_declarator_list (fuel : Nat) (typestr : String) (s : St) : St :=
  m2_idl_loop fuel typestr (m2_init_declarator typestr s)

/-- declaration (sematic variant). -/
def m2_declaration (fuel : Nat) (typestr : String) (s : St) : St :=
  let s1 := m2_init_declarator_list fuel typestr s
  match m2_matchTok "SEMICOLON" s1 with
  | (none, s2) => m2_syn_error "Semicolon expected" s2
  | (some _, s2) => s2

/-- global_decl_list of sematic_analyser.c: the rollback `pos--` happens
before the MAIN test, and the type specifier is then re-parsed. -/
def m2_global_decl_list (fuel : Nat) (s : St) : St :=
  match fuel with
  | 0 => s
  | fuel + 1 =>
    let t := m2_LA s
    if is_type_token t.token then
      let s1 := (m2_consume s).2
      let t2 := m2_LA s1
      let s2 := { s1 with pos := s1.pos - 1 }
      if t2.token = "MAIN" then s2
      else
        match m2_type_specifier s2 with
        | (none, s3) => m2_syn_error "Any keyword expected" s3
        | (some ty, s3) => m2_global_decl_list fuel (m2_declaration fuel ty s3)
    else s

/-- The operator loop of expression_if_any (sematic variant, same type
rules as the semantic one). -/
def m2_expr_loop (fuel : Nat) (cur_type : Int) (s : St) : Int × St :=
  match fuel with
  | 0 => (cur_type, s)
  | fuel + 1 =>
    let op := m2_LA s
    if is_operator op.token then
      let s1 := (m2_consume s).2
      let b := m2_LA s1
      if b.token = "IDENTIFIER" then
        let r :=
          match lookup_symbol b.lexeme s1 with
          | none => (TYPE_ERROR, semantic_error "Undeclared identifier." b.line s1)
          | some y => (str_to_type y.type, s1)
        let s2 := (m2_consume r.2).2
        let r2 := apply_binary_op op.token cur_type r.1 op.line s2
        m2_expr_loop fuel r2.1 r2.2
      else if b.token = "INT_CONST" ∨ b.token = "CHAR_CONST" then
        let s2 := (m2_consume s1).2
        let r2 := apply_binary_op op.token cur_type (const_token_type b) op.line s2
        m2_expr_loop fuel r2.1 r2.2
      else (cur_type, m2_syn_error "Identifier or integer constant expected" s1)
    else (cur_type, s)

/-- expression_if_any (sematic variant). -/
def m2_expression_if_any (fuel : Nat) (s : St) : Option Int × St :=
  let a := m2_LA s
  if a.token = "IDENTIFIER" then
    let r :=
      match lookup_symbol a.lexeme s with
      | none => (TYPE_ERROR, semantic_error "Undeclared identifier." a.line s)
      | some y => (str_to_type y.type, s)
    let s1 := (m2_consume r.2).2
    let r2 := m2_expr_loop fuel r.1 s1
    (some r2.1, r2.2)
  else if a.token = "INT_CONST" ∨ a.token = "CHAR_CONST" then
    let s1 := (m2_consume s).2
    let r2 := m2_expr_loop fuel (const_token_type a) s1
    (some r2.1, r2.2)
  else (none, s)

/-- The (textually identical) inline condition type check of the sematic
variant, at the m2 lookahead line. -/
def m2_cond_type_check (cond_type : Int) (s : St) : St :=
  if cond_type ≠ TYPE_INT ∧ cond_type ≠ TYPE_ERROR then
    semantic_error "Integer expected in conditional expression." (m2_LA s).line s
  else s

/-- expr_stmt (sematic variant). -/
def m2_expr_stmt (fuel : Nat) (s : St) : St :=
  match m2_matchTok "SEMICOLON" s with
  | (some _, s1) => s1
  | (none, _) =>
    let s1 :=
      match m2_expression_if_any fuel s with
      | (none, sa) => m2_syn_error "Identifier or integer constant expected" sa
      | (some _, sa) => sa
    match m2_matchTok "SEMICOLON" s1 with
    | (none, sa) => m2_syn_error "Semicolon expected" sa
    | (some _, sa) => sa

mutual

/-- statement dispatcher (sematic variant). -/
def m2_statement (fuel : Nat) (s : St) : St :=
  match fuel with
  | 0 => s
  | fuel + 1 =>
    let t := m2_LA s
    if is_type_token t.token then
      match m2_type_specifier s with
      | (none, s1) => m2_syn_error "Any keyword expected" s1
      | (some ty, s1) => m2_declaration fuel ty s1
    else if t.token = "IF" then m2_if_stmt fuel s
    else if t.token = "WHILE" then m2_while_stmt fuel s
    else if t.token = "FOR" then m2_for_stmt fuel s
    else if t.token = "LBRACE" then m2_block fuel s
    else m2_expr_stmt fuel s

/-- if_stmt (sematic variant). -/
def m2_if_stmt (fuel : Nat) (s : St) : St :=
  match fuel with
  | 0 => s
  | fuel + 1 =>
    match m2_matchTok "IF" s with
    | (none, s1) => m2_syn_error "IF expected" s1
    | (some _, s1) =>
      let s2 :=
        match m2_matchTok "LPAREN" s1 with
        | (none, sa) => m2_syn_error "Opening parenthesis missing" sa
        | (some _, sa) => sa
      let s3 :=
        match m2_expression_if_any fuel s2 with
        | (none, sa) => m2_syn_error "Identifier or integer constant expected" sa
        | (some ct, sa) => m2_cond_type_check ct sa
      let s4 :=
        match m2_matchTok "RPAREN" s3 with
        | (none, sa) => m2_syn_error "Closing parenthesis missing" sa
        | (some _, sa) => sa
      let s5 := m2_block fuel s4
      match m2_matchTok "ELSE" s5 with
      | (none, s6) => s6
      | (some _, s6) => m2_block fuel s6

/-- while_stmt (sematic variant). -/
def m2_while_stmt (fuel : Nat) (s : St) : St :=
  match fuel with
  | 0 => s
  | fuel + 1 =>
    match m2_matchTok "WHILE" s with
    | (none, s1) => m2_syn_error "WHILE expected" s1
    | (some _, s1) =>
      let s2 :=
        match m2_matchTok "LPAREN" s1 with
        | (none, sa) => m2_syn_error "Opening parenthesis missing" sa
        | (some _, sa) => sa
      let s3 :=
        match m2_expression_if_any fuel s2 with
        | (none, sa) => m2_syn_error "Identifier or integer constant expected" sa
        | (some ct, sa) => m2_cond_type_check ct sa
      let s4 :=
        match m2_matchTok "RPAREN" s3 with
        | (none, sa) => m2_syn_error "Closing parenthesis missing" sa
        | (some _, sa) => sa
      m2_block fuel s4

/-- for_stmt (sematic variant). -/
def m2_for_stmt (fuel : Nat) (s : St) : St :=
  match fuel with
  | 0 => s
  | fuel + 1 =>
    match m2_matchTok "FOR" s with
    | (none, s1) => m2_syn_error "FOR expected" s1
    | (some _, s1) =>
      let s2 :=
        match m2_matchTok "LPAREN" s1 with
        | (none, sa) => m2_syn_error "Opening parenthesis missing" sa
        | (some _, sa) => sa
      let s3 :=
        match m2_expression_if_any fuel s2 with
        | (none, sa) => m2_syn_error "Identifier or integer constant expected" sa
        | (some _, sa) => sa
      let s4 :=
        match m2_matchTok "SEMICOLON" s3 with
        | (none, sa) => m2_syn_error "Semicolon expected" sa
        | (some _, sa) => sa
      let s5 :=
        match m2_expression_if_any fuel s4 with
        | (none, sa) => m2_syn_error "Identifier or integer constant expected" sa
        | (some ct, sa) => m2_cond_type_check ct sa
      let s6 :=
        match m2_matchTok "SEMICOLON" s5 with
        | (none, sa) => m2_syn_error "Semicolon expected" sa
        | (some _, sa) => sa
      let s7 :=
        match m2_expression_if_any fuel s6 with
        | (none, sa) => m2_syn_error "Identifier or integer constant expected" sa
        | (some _, sa) => sa
      let s8 :=
        match m2_matchTok "RPAREN" s7 with
        | (none, sa) => m2_syn_error "Closing parenthesis missing" sa
        | (some _, sa) => sa
      m2_statement fuel s8

/-- block (sematic variant). -/
def m2_block (fuel : Nat) (s : St) : St :=
  match fuel with
  | 0 => s
  | fuel + 1 =>
    match m2_matchTok "LBRACE" s with
    | (none, s1) => m2_syn_error "\x7b missing" s1
    | (some _, s1) =>
      let s2 := m2_stmt_list_opt fuel s1
      match m2_matchTok "RBRACE" s2 with
      | (none, s3) => m2_syn_error "\x7d missing" s3
      | (some _, s3) => s3

/-- stmt_list_opt (sematic variant). -/
def m2_stmt_list_opt (fuel : Nat) (s : St) : St :=
  match fuel with
  | 0 => s
  | fuel + 1 =>
    let t := m2_LA s
    if t.token = "RBRACE" ∨ t.token = "EOF" then s
    else m2_stmt_list_opt fuel (m2_statement fuel s)

end

/-- The parameter-list loop of function_def in sematic_analyser.c: the
failed type-specifier and identifier cases report but do not break, and
the C code then reads the uninitialized pty/pid locals — modelled by "?"
placeholders. -/
def m2_params_loop (fuel : Nat) (s : St) : St :=
  match fuel with
  | 0 => s
  | fuel + 1 =>
    let r := m2_type_specifier s
    let s1 :=
      match r with
      | (none, sa) => m2_syn_error "Any keyword expected" sa
      | (some _, sa) => sa
    let r2 :=
      match m2_matchTok "IDENTIFIER" s1 with
      | (none, sa) => (Tok.mk "?" "?" 0, m2_syn_error "Identifier expected" sa)
      | (some pid, sa) => (pid, sa)
    let s3 := m2_add_symbol r2.1.lexeme (r.1.getD "?") "Main" 0 r2.2
    match m2_matchTok "COMMA" s3 with
    | (none, s4) => s4
    | (some _, s4) => m2_params_loop fuel s4

/-- function_def of sematic_analyser.c: no symbol is inserted for `main`;
the scope register switches to Main only after the opening brace and is
restored to Global after the closing brace. -/
def m2_function_def (fuel : Nat) (_ret_type : String) (s : St) : St :=
  match m2_matchTok "MAIN" s with
  | (none, s1) => m2_syn_error "MAIN expected" s1
  | (some _, s1) =>
    let s2 :=
      match m2_matchTok "LPAREN" s1 with
      | (none, sa) => m2_syn_error "Opening parenthesis missing" sa
      | (some _, sa) => sa
    let t := m2_LA s2
    let s3 := if t.token = "VOID" then (m2_consume s2).2 else m2_params_loop fuel s2
    let s4 :=
      match m2_matchTok "RPAREN" s3 with
      | (none, sa) => m2_syn_error "Closing parenthesis missing" sa
      | (some _, sa) => sa
    let s5 :=
      match m2_matchTok "LBRACE" s4 with
      | (none, sa) => m2_syn_error "\x7b missing" sa
      | (some _, sa) => sa
    let s6 := m2_stmt_list_opt fuel { s5 with cur_scope := "Main" }
    let s7 :=
      match m2_matchTok "RBRACE" s6 with
      | (none, sa) => m2_syn_error "\x7d missing" sa
      | (some _, sa) => sa
    { s7 with cur_scope := "Global" }

/-- program (sematic variant). -/
def m2_program (fuel : Nat) (s : St) : St :=
  let s1 := m2_global_decl_list fuel s
  match m2_type_specifier s1 with
  | (none, s2) => m2_syn_error "Any keyword expected" s2
  | (some fty, s2) => m2_function_def fuel fty s2

/-- LA of syntax_analyser.c: EOF sentinel line 999999. -/
def sx_LA (s : St) : Tok :=
  if s.pos < s.toks.length then s.toks.getD s.pos eofTok9 else eofTok9

/-- consume of syntax_analyser.c. -/
def sx_consume (s : St) : Tok × St :=
  (sx_LA s, if s.pos < s.toks.length then { s with pos := s.pos + 1 } else s)

/-- syn_error of syntax_analyser.c: diagnostic at the lookahead line
(999999 past the end), then skip_line_tokens of that line. -/
def sx_syn_error (msg : String) (s : St) : St :=
  let t := sx_LA s
  skip_line_tokens t.line { s with errors := s.errors ++ [(t.line, msg)] }

/-- scan_string of lexical_analyser.c, after the opening quote has been
consumed: `start_line` is the line_no register at entry (the line the
literal started on), `cs` the remaining character stream, `buf` the
accumulated lexeme (reversed; the C buffer caps at 1023 content bytes,
escape pairs are dropped whole beyond 1022).  Result: the emitted
STRING_CONST token if any, the diagnostics written, and the unconsumed
input. -/
def scan_string_go (start_line : Int) :
    List Char → List Char → Option Tok × List (Int × String) × List Char
  | [], _buf => (none, [(start_line, "String constants exceed line")], [])
  | c :: rest, buf =>
    if c = '\n' then (none, [(start_line, "String constants exceed line")], rest)
    else if c = '"' then
      (some ⟨"STRING_CONST", String.mk buf.reverse, start_line⟩, [], rest)
    else if c = '\\' then
      match rest with
      | [] => (none, [(start_line, "String constants exceed line")], [])
      | e :: rest2 =>
        if e = '\n' then (none, [(start_line, "String constants exceed line")], rest2)
        else
          scan_string_go start_line rest2
            (if buf.length < 1022 then e :: '\\' :: buf else buf)
    else scan_string_go start_line rest (if buf.length < 1023 then c :: buf else buf)

/-- scan_string entry point: empty buffer. -/
def scan_string (start_line : Int) (cs : List Char) :
    Option Tok × List (Int × String) × List Char :=
  scan_string_go start_line cs []

/-- The input shapes on which a string literal's opening quote is
followed by end-of-line or end-of-input before a closing quote
(backslash-escaped characters, including an escaped quote, do not
close the literal). -/
def unterminated_string : List Char → Bool
  | [] => true
  | c :: rest =>
    if c = '\n' then true
    else if c = '"' then false
    else if c = '\\' then
      match rest with
      | [] => true
      | e :: rest2 => if e = '\n' then true else unterminated_string rest2
    else unterminated_string rest

/-- One %Ns conversion of sscanf: skip whitespace, then read up to
`width` non-whitespace characters; fails when the input is exhausted. -/
def take_field (width : Nat) (cs : List Char) : Option (String × List Char) :=
  let cs1 := cs.dropWhile is_c_space
  match cs1 with
  | [] => none
  | _ :: _ =>
    let f := (cs1.takeWhile (fun c => !is_c_space c)).take width
    some (String.mk f, cs1.drop f.length)

/-- One %d conversion of sscanf: skip whitespace, optional sign, at
least one digit (value of the maximal digit run; trailing junk is left
unread). -/
def parse_int_field (cs : List Char) : Option Int :=
  let cs1 := cs.dropWhile is_c_space
  let r : Int × List Char :=
    match cs1 with
    | '-' :: rest => (-1, rest)
    | '+' :: rest => (1, rest)
    | _ => (1, cs1)
  match r.2 with
  | c :: _ => if '0' ≤ c ∧ c ≤ '9' then some (r.1 * read_digits r.2 0) else none
  | [] => none

/-- The per-row sscanf(linebuf, "%31s %255s %d", ...) == 3 test of
load_tokens in semantic_analyser.c, together with the stored token. -/
def parse_row (row : String) : Option Tok :=
  match take_field 31 row.toList with
  | none => none
  | some (t1, r1) =>
    match take_field 255 r1 with
    | none => none
    | some (t2, r2) =>
      match parse_int_field r2 with
      | none => none
      | some ln => some ⟨t1, t2, ln⟩

/-- The fgets/sscanf loop of load_tokens: rows that parse as three
fields are stored in file order until the MAXTOK capacity is reached
(then the loop breaks); every other row is skipped. -/
def load_loop : List String → List Tok → List Tok
  | [], acc => acc
  | l :: ls, acc =>
    match parse_row l with
    | none => load_loop ls acc
    | some t => if MAXTOK ≤ acc.length then acc else load_loop ls (acc ++ [t])

/-- load_tokens of semantic_analyser.c on the file's lines: the first
fgets unconditionally reads (and discards) the first line — load_tokens
returns failure only when the file is empty — and the loop then parses
every remaining line. -/
def load_tokens (lines : List String) : Option (List Tok) :=
  match lines with
  | [] => none
  | _hdr :: rest => some (load_loop rest [])

/-- Token stream of the minimal program `int main(void){ }`. -/
def minToks : List Tok :=
  [⟨"INT", "int", 1⟩, ⟨"MAIN", "main", 1⟩, ⟨"LPAREN", "(", 1⟩, ⟨"VOID", "void", 1⟩,
   ⟨"RPAREN", ")", 1⟩, ⟨"LBRACE", "\x7b", 1⟩, ⟨"RBRACE", "\x7d", 1⟩]

/-- Token stream of `char y; int main(void){ while (y) { } }`. -/
def whileToks : List Tok :=
  [⟨"CHAR", "char", 1⟩, ⟨"IDENTIFIER", "y", 1⟩, ⟨"SEMICOLON", ";", 1⟩,
   ⟨"INT", "int", 2⟩, ⟨"MAIN", "main", 2⟩, ⟨"LPAREN", "(", 2⟩, ⟨"VOID", "void", 2⟩,
   ⟨"RPAREN", ")", 2⟩, ⟨"LBRACE", "\x7b", 2⟩,
   ⟨"WHILE", "while", 3⟩, ⟨"LPAREN", "(", 3⟩, ⟨"IDENTIFIER", "y", 3⟩,
   ⟨"RPAREN", ")", 3⟩, ⟨"LBRACE", "\x7b", 3⟩, ⟨"RBRACE", "\x7d", 3⟩,
   ⟨"RBRACE", "\x7d", 4⟩]

/-- Token stream of `int x; int x; int main(void){ }`. -/
def dupToks : List Tok :=
  [⟨"INT", "int", 1⟩, ⟨"IDENTIFIER", "x", 1⟩, ⟨"SEMICOLON", ";", 1⟩,
   ⟨"INT", "int", 2⟩, ⟨"IDENTIFIER", "x", 2⟩, ⟨"SEMICOLON", ";", 2⟩,
   ⟨"INT", "int", 3⟩, ⟨"MAIN", "main", 3⟩, ⟨"LPAREN", "(", 3⟩, ⟨"VOID", "void", 3⟩,
   ⟨"RPAREN", ")", 3⟩, ⟨"LBRACE", "\x7b", 3⟩, ⟨"RBRACE", "\x7d", 3⟩]

/-- A three-token stream (two tokens on line 1, one on line 2) used to
exercise the error-recovery line skip. -/
def stC7 : St :=
  initSt [⟨"IDENTIFIER", "a", 1⟩, ⟨"IDENTIFIER", "b", 1⟩, ⟨"INT", "int", 2⟩]

/-- A symbol table whose current scope holds an `x` shadowing a global
`x`, used to exercise lookup precedence. -/
def stC5 : St :=
  { toks := [], pos := 0,
    symtab := [⟨"x", "Int", "Global", 0⟩, ⟨"x", "Char", "Main", 0⟩],
    cur_scope := "Main", errors := [] }

/-- A symbol table filled to the MAXSYM capacity. -/
def fullTable : List Symb := List.replicate MAXSYM ⟨"a", "Int", "Global", 0⟩

lemma apply_binary_op_error (op : String) (lhs rhs line : Int) (s : St)
    (h : lhs = TYPE_ERROR ∨ rhs = TYPE_ERROR) :
    apply_binary_op op lhs rhs line s = (TYPE_ERROR, s) := by
  unfold apply_binary_op
  split_ifs <;> simp_all

lemma apply_chain_error (steps : List (String × Int × Int)) (s : St) :
    apply_chain TYPE_ERROR steps s = (TYPE_ERROR, s) := by
  induction steps with
  | nil => rfl
  | cons p rest ih =>
    obtain ⟨op, rhs, line⟩ := p
    simp only [apply_chain, apply_binary_op_error op TYPE_ERROR rhs line s (Or.inl rfl)]
    exact ih

/-- C1: for every binary application with an operator among
+ - * / > < == =, an Error operand on either side yields Error with no
new diagnostic, and a whole left-to-right chain of such applications
starting from Error stays Error and emits no diagnostic, however many
operators follow. -/
theorem claim_C1 (op : String) (lhs rhs line : Int) (s : St)
    (_hop : op ∈ (["PLUS", "MINUS", "STAR", "SLASH", "GT", "LT", "EQ", "ASSIGN"] :
      List String))
    (herr : lhs = TYPE_ERROR ∨ rhs = TYPE_ERROR) :
    apply_binary_op op lhs rhs line s = (TYPE_ERROR, s) ∧
    ∀ steps : List (String × Int × Int), apply_chain TYPE_ERROR steps s = (TYPE_ERROR, s) :=
  ⟨apply_binary_op_error op lhs rhs line s herr, fun steps => apply_chain_error steps s⟩

theorem claim_C1_witness :
    apply_binary_op "PLUS" TYPE_ERROR TYPE_INT 5 (initSt []) = (TYPE_ERROR, initSt []) ∧
    apply_chain TYPE_ERROR [("PLUS", TYPE_INT, 6), ("ASSIGN", TYPE_CHAR, 7)] (initSt []) =
      (TYPE_ERROR, initSt []) :=
  ⟨(claim_C1 "PLUS" TYPE_ERROR TYPE_INT 5 (initSt []) (by decide) (Or.inl rfl)).1,
   (claim_C1 "PLUS" TYPE_ERROR TYPE_INT 5 (initSt []) (by decide) (Or.inl rfl)).2
     [("PLUS", TYPE_INT, 6), ("ASSIGN", TYPE_CHAR, 7)]⟩

/-- C2: for non-Error operands, = and the arithmetic operators yield the
common type on equal operand types and report one type-mismatch
diagnostic (yielding Error) on unequal types; the relational operators
< > == yield Int on equal operand types (Int or Char alike) and report
the same single diagnostic on unequal types. -/
theorem claim_C2 (op : String) (lhs rhs line : Int) (s : St)
    (h1 : lhs = TYPE_INT ∨ lhs = TYPE_CHAR) (h2 : rhs = TYPE_INT ∨ rhs = TYPE_CHAR) :
    ((op ∈ (["ASSIGN", "PLUS", "MINUS", "STAR", "SLASH"] : List String)) →
      (lhs = rhs → apply_binary_op op lhs rhs line s = (lhs, s)) ∧
      (lhs ≠ rhs →
        apply_binary_op op lhs rhs line s =
          (TYPE_ERROR,
           { s with errors :=
               s.errors ++ [(line, "Type mismatch in statement or expression.")] })))
    ∧ ((op ∈ (["LT", "GT", "EQ"] : List String)) →
      (lhs = rhs → apply_binary_op op lhs rhs line s = (TYPE_INT, s)) ∧
      (lhs ≠ rhs →
        apply_binary_op op lhs rhs line s =
          (TYPE_ERROR,
           { s with errors :=
               s.errors ++ [(line, "Type mismatch in statement or expression.")] }))) := by
  constructor
  · intro hop
    constructor
    · intro he
      rcases h1 with rfl | rfl <;> rcases h2 with rfl | rfl <;>
        fin_cases hop <;>
        simp_all [apply_binary_op, semantic_error, TYPE_ERROR, TYPE_INT, TYPE_CHAR]
    · intro hne
      rcases h1 with rfl | rfl <;> rcases h2 with rfl | rfl <;>
        fin_cases hop <;>
        simp_all [apply_binary_op, semantic_error, TYPE_ERROR, TYPE_INT, TYPE_CHAR]
  · intro hop
    constructor
    · intro he
      rcases h1 with rfl | rfl <;> rcases h2 with rfl | rfl <;>
        fin_cases hop <;>
        simp_all [apply_binary_op, semantic_error, TYPE_ERROR, TYPE_INT, TYPE_CHAR]
    · intro hne
      rcases h1 with rfl | rfl <;> rcases h2 with rfl | rfl <;>
        fin_cases hop <;>
        simp_all [apply_binary_op, semantic_error, TYPE_ERROR, TYPE_INT, TYPE_CHAR]

theorem claim_C2_witness :
    apply_binary_op "LT" TYPE_CHAR TYPE_CHAR 4 (initSt []) = (TYPE_INT, initSt []) ∧
    apply_binary_op "PLUS" TYPE_INT TYPE_CHAR 9 (initSt []) =
      (TYPE_ERROR,
       { initSt [] with errors :=
           (initSt []).errors ++ [(9, "Type mismatch in statement or expression.")] }) :=
  ⟨((claim_C2 "LT" TYPE_CHAR TYPE_CHAR 4 (initSt []) (Or.inr rfl) (Or.inr rfl)).2
      (by decide)).1 rfl,
   ((claim_C2 "PLUS" TYPE_INT TYPE_CHAR 9 (initSt []) (Or.inl rfl) (Or.inr rfl)).1
      (by decide)).2 (by decide)⟩

/-- C3 (as amended): in semantic_analyser.c, the run of the minimal
program `int main(void){ }` ends with 0 diagnostics and a symbol table
holding exactly the one Function symbol `main` in scope Global (inserted
before the scope register switches to Main, as the Global scope tag of
the entry shows), and for every state whose lookahead is MAIN the scope
register is Global again after function_def returns. -/
theorem claim_C3 :
    (program 64 (initSt minToks) =
      { toks := minToks, pos := 7,
        symtab := [⟨"main", "Function", "Global", 0⟩],
        cur_scope := "Global", errors := [] })
    ∧ (∀ (fuel : Nat) (rt : String) (s : St), (LA s).token = "MAIN" →
        (function_def fuel rt s).cur_scope = "Global") := by
  constructor
  · decide
  · intro fuel rt s h
    simp [function_def, matchTok, h]

theorem claim_C3_witness :
    (function_def 64 "Int" { initSt minToks with pos := 1, cur_scope := "Zed" }).cur_scope =
      "Global" :=
  claim_C3.2 64 "Int" { initSt minToks with pos := 1, cur_scope := "Zed" } (by decide)

/-- C3 counterexample: the sematic_analyser.c variant of function_def
never inserts `main`; its run of `int main(void){ }` ends with 0
diagnostics and an empty symbol table, not a table containing a Function
entry named main. -/
theorem claim_C3_cex :
    m2_program 64 (initSt minToks) =
      { toks := minToks, pos := 7, symtab := [], cur_scope := "Global", errors := [] } ∧
    (m2_program 64 (initSt minToks)).symtab = [] := by
  constructor <;> decide

lemma has_dup_iff (name scope : String) (l : List Symb) :
    has_dup name scope l = true ↔ ∃ y ∈ l, y.lexeme = name ∧ y.scope = scope := by
  induction l with
  | nil => simp [has_dup]
  | cons y ys ih =>
    by_cases h : y.lexeme = name ∧ y.scope = scope <;> simp [has_dup, h, ih]

/-- C4 (as amended): insert reports the duplicate diagnostic exactly once
and leaves the table unchanged when a symbol with the same (name, scope)
already exists; when none exists and the table is below its MAXSYM
capacity it appends the new symbol with no diagnostic (at capacity the
insert is silently dropped); and the run of `int x; int x; int
main(void){ }` yields exactly one duplicate diagnostic and retains only
the first x. -/
theorem claim_C4 (name ty scope : String) (arrsz line : Int) (s : St) :
    ((∃ y ∈ s.symtab, y.lexeme = name ∧ y.scope = scope) →
      add_symbol name ty scope arrsz line s =
        { s with errors :=
            s.errors ++ [(line, "Multiple declarations of same identifier.")] })
    ∧ ((¬ ∃ y ∈ s.symtab, y.lexeme = name ∧ y.scope = scope) →
        s.symtab.length < MAXSYM →
      add_symbol name ty scope arrsz line s =
        { s with symtab := s.symtab ++ [⟨name, ty, scope, arrsz⟩] })
    ∧ (program 64 (initSt dupToks) =
        { toks := dupToks, pos := 13,
          symtab := [⟨"x", "Int", "Global", 0⟩, ⟨"main", "Function", "Global", 0⟩],
          cur_scope := "Global",
          errors := [(2, "Multiple declarations of same identifier.")] }) := by
  refine ⟨?_, ?_, by decide⟩
  · intro h
    have hd : has_dup name scope s.symtab = true := (has_dup_iff name scope s.symtab).2 h
    simp [add_symbol, hd, semantic_error]
  · intro h hlen
    have hd : has_dup name scope s.symtab = false := by
      rw [← Bool.not_eq_true, has_dup_iff]
      exact h
    simp [add_symbol, hd, Nat.not_le_of_lt hlen]

theorem claim_C4_witness :
    add_symbol "x" "Int" "Global" 0 2
        { initSt [] with symtab := [⟨"x", "Int", "Global", 0⟩] } =
      { initSt [] with
          symtab := [⟨"x", "Int", "Global", 0⟩],
          errors := [(2, "Multiple declarations of same identifier.")] } ∧
    add_symbol "y" "Char" "Main" 0 3 (initSt []) =
      { initSt [] with symtab := [⟨"y", "Char", "Main", 0⟩] } := by
  constructor
  · have h := (claim_C4 "x" "Int" "Global" 0 2
      { initSt [] with symtab := [⟨"x", "Int", "Global", 0⟩] }).1 (by decide)
    simpa using h
  · have h := ((claim_C4 "y" "Char" "Main" 0 3 (initSt [])).2.1 (by decide) (by decide))
    simpa using h

lemma has_dup_replicate (name scope : String) (n : Nat) (y : Symb)
    (h : ¬(y.lexeme = name ∧ y.scope = scope)) :
    has_dup name scope (List.replicate n y) = false := by
  induction n with
  | zero => simp [has_dup]
  | succ n ih => simp [List.replicate_succ, has_dup, h, ih]

/-- C4 counterexample: at a full table (MAXSYM = 4096 symbols) a
non-duplicate insert appends nothing and emits nothing, so the claim's
unconditional "otherwise it appends the new symbol" fails. -/
theorem claim_C4_cex :
    add_symbol "b" "Int" "Global" 0 7 { initSt [] with symtab := fullTable } =
      { initSt [] with symtab := fullTable } ∧
    fullTable.length = MAXSYM ∧
    ¬ (add_symbol "b" "Int" "Global" 0 7 { initSt [] with symtab := fullTable } =
        { initSt [] with symtab := fullTable ++ [⟨"b", "Int", "Global", 0⟩] }) := by
  have hd : has_dup "b" "Global" fullTable = false :=
    has_dup_replicate "b" "Global" MAXSYM ⟨"a", "Int", "Global", 0⟩ (by decide)
  have hlen : fullTable.length = MAXSYM := by simp [fullTable]
  have h1 : add_symbol "b" "Int" "Global" 0 7 { initSt [] with symtab := fullTable } =
      { initSt [] with symtab := fullTable } := by
    simp [add_symbol, hd, hlen]
  refine ⟨h1, hlen, fun hc => ?_⟩
  rw [h1] at hc
  have := congrArg (fun st => st.symtab.length) hc
  simp [hlen] at this

lemma find_in_scope_eq_some (name scope : String) (l : List Symb) (y : Symb)
    (h : find_in_scope name scope l = some y) :
    y.lexeme = name ∧ y.scope = scope ∧ y ∈ l := by
  induction l with
  | nil => simp [find_in_scope] at h
  | cons z zs ih =>
    by_cases hz : z.lexeme = name ∧ z.scope = scope
    · simp [find_in_scope, hz] at h
      subst h
      exact ⟨hz.1, hz.2, List.mem_cons_self z zs⟩
    · simp [find_in_scope, hz] at h
      obtain ⟨h1, h2, h3⟩ := ih h
      exact ⟨h1, h2, List.mem_cons_of_mem z h3⟩

lemma find_in_scope_eq_none (name scope : String) (l : List Symb) :
    find_in_scope name scope l = none ↔
      ∀ y ∈ l, ¬(y.lexeme = name ∧ y.scope = scope) := by
  induction l with
  | nil => simp [find_in_scope]
  | cons z zs ih =>
    by_cases hz : z.lexeme = name ∧ z.scope = scope <;>
      simp [find_in_scope, hz, ih]
    exact fun _ h1 h2 => hz ⟨h1, h2⟩

/-- C5: lookup returns a symbol of the current scope whenever one with
the looked-up name exists there, falls back to a Global-scope symbol only
when no current-scope match exists, and reports not-found when neither
exists; with the scope register at Main this is exactly the shadowing of
a global x by a Main-scope x. -/
theorem claim_C5 (name : String) (s : St) :
    ((∃ y ∈ s.symtab, y.lexeme = name ∧ y.scope = s.cur_scope) →
      ∃ y, lookup_symbol name s = some y ∧ y.lexeme = name ∧ y.scope = s.cur_scope ∧
        y ∈ s.symtab)
    ∧ ((¬ ∃ y ∈ s.symtab, y.lexeme = name ∧ y.scope = s.cur_scope) →
       (∃ y ∈ s.symtab, y.lexeme = name ∧ y.scope = "Global") →
      ∃ y, lookup_symbol name s = some y ∧ y.lexeme = name ∧ y.scope = "Global" ∧
        y ∈ s.symtab)
    ∧ ((¬ ∃ y ∈ s.symtab, y.lexeme = name ∧ y.scope = s.cur_scope) →
       (¬ ∃ y ∈ s.symtab, y.lexeme = name ∧ y.scope = "Global") →
      lookup_symbol name s = none) := by
  refine ⟨?_, ?_, ?_⟩
  · intro h
    cases hf : find_in_scope name s.cur_scope s.symtab with
    | none =>
      rw [find_in_scope_eq_none] at hf
      obtain ⟨y, hy, hy2⟩ := h
      exact absurd hy2 (hf y hy)
    | some y =>
      obtain ⟨h1, h2, h3⟩ := find_in_scope_eq_some name s.cur_scope s.symtab y hf
      exact ⟨y, by simp [lookup_symbol, hf], h1, h2, h3⟩
  · intro hcur hglob
    have hf : find_in_scope name s.cur_scope s.symtab = none := by
      rw [find_in_scope_eq_none]
      intro y hy hy2
      exact hcur ⟨y, hy, hy2⟩
    cases hg : find_in_scope name "Global" s.symtab with
    | none =>
      rw [find_in_scope_eq_none] at hg
      obtain ⟨y, hy, hy2⟩ := hglob
      exact absurd hy2 (hg y hy)
    | some y =>
      obtain ⟨h1, h2, h3⟩ := find_in_scope_eq_some name "Global" s.symtab y hg
      exact ⟨y, by simp [lookup_symbol, hf, hg], h1, h2, h3⟩
  · intro hcur hglob
    have hf : find_in_scope name s.cur_scope s.symtab = none := by
      rw [find_in_scope_eq_none]
      intro y hy hy2
      exact hcur ⟨y, hy, hy2⟩
    have hg : find_in_scope name "Global" s.symtab = none := by
      rw [find_in_scope_eq_none]
      intro y hy hy2
      exact hglob ⟨y, hy, hy2⟩
    simp [lookup_symbol, hf, hg]

theorem claim_C5_witness :
    ∃ y, lookup_symbol "x" stC5 = some y ∧ y.lexeme = "x" ∧ y.scope = stC5.cur_scope ∧
      y ∈ stC5.symtab :=
  (claim_C5 "x" stC5).1 ⟨⟨"x", "Char", "Main", 0⟩, by decide, by decide⟩

/-- C6: the condition check shared by if, while and for's middle clause
reports "Integer expected in conditional expression." at the current
lookahead line exactly once when the evaluated condition type is Char,
reports nothing when it is Int or Error, and the run of
`char y; int main(void){ while (y) { } }` produces exactly that one
diagnostic while still consuming the loop body and the whole program. -/
theorem claim_C6 (ct : Int) (s : St) :
    ((ct = TYPE_CHAR →
       cond_type_check ct s =
         { s with errors :=
             s.errors ++ [((LA s).line, "Integer expected in conditional expression.")] })
     ∧ ((ct = TYPE_INT ∨ ct = TYPE_ERROR) → cond_type_check ct s = s))
    ∧ (program 64 (initSt whileToks) =
        { toks := whileToks, pos := 16,
          symtab := [⟨"y", "Char", "Global", 0⟩, ⟨"main", "Function", "Global", 0⟩],
          cur_scope := "Global",
          errors := [(3, "Integer expected in conditional expression.")] })
    ∧ (∀ ct2 : Int, m2_cond_type_check ct2 s =
        (if ct2 ≠ TYPE_INT ∧ ct2 ≠ TYPE_ERROR then
          semantic_error "Integer expected in conditional expression." (m2_LA s).line s
        else s)) := by
  refine ⟨⟨?_, ?_⟩, by decide, fun ct2 => rfl⟩
  · intro h
    subst h
    simp [cond_type_check, semantic_error, TYPE_CHAR, TYPE_INT, TYPE_ERROR]
  · intro h
    rcases h with rfl | rfl <;> simp [cond_type_check, TYPE_INT, TYPE_ERROR]

theorem claim_C6_witness :
    cond_type_check TYPE_CHAR (initSt [⟨"RPAREN", ")", 3⟩]) =
      { initSt [⟨"RPAREN", ")", 3⟩] with
          errors := [(3, "Integer expected in conditional expression.")] } := by
  have h := (claim_C6 TYPE_CHAR (initSt [⟨"RPAREN", ")", 3⟩])).1.1 rfl
  simpa using h

lemma getD_drop_tok (l : List Tok) (i k : Nat) (d : Tok) :
    (l.drop i).getD k d = l.getD (i + k) d := by
  induction l generalizing i with
  | nil => simp
  | cons x xs ih =>
    cases i with
    | zero => simp
    | succ i =>
      have h : i + 1 + k = (i + k) + 1 := by omega
      simp only [List.drop_succ_cons, h, List.getD_cons_succ]
      exact ih i

lemma getD_default_tok (l : List Tok) (i : Nat) (d1 d2 : Tok) (h : i < l.length) :
    l.getD i d1 = l.getD i d2 := by
  induction l generalizing i with
  | nil => simp at h
  | cons x xs ih =>
    cases i with
    | zero => simp
    | succ i => simpa using ih i (by simpa using h)

lemma skipCount_le (line : Int) (ts : List Tok) : skipCount line ts ≤ ts.length := by
  induction ts with
  | nil => simp [skipCount]
  | cons t ts ih =>
    by_cases h : t.line = line <;> simp [skipCount, h]
    omega

lemma skipCount_pos (line : Int) (ts : List Tok) (d : Tok)
    (hlen : 0 < ts.length) (h : (ts.getD 0 d).line = line) : 0 < skipCount line ts := by
  cases ts with
  | nil => simp at hlen
  | cons t ts => simp_all [skipCount]

lemma skipCount_run (line : Int) (ts : List Tok) (k : Nat) (d : Tok)
    (h : k < skipCount line ts) : (ts.getD k d).line = line := by
  induction ts generalizing k with
  | nil => simp [skipCount] at h
  | cons t ts ih =>
    by_cases ht : t.line = line
    · cases k with
      | zero => simpa using ht
      | succ k =>
        simp only [skipCount, if_pos ht] at h
        simpa using ih k (by omega)
    · simp [skipCount, ht] at h

lemma skipCount_stop (line : Int) (ts : List Tok) (d : Tok)
    (h : skipCount line ts < ts.length) :
    (ts.getD (skipCount line ts) d).line ≠ line := by
  induction ts with
  | nil => simp at h
  | cons t ts ih =>
    by_cases ht : t.line = line
    · simp only [skipCount, if_pos ht] at h ⊢
      simpa using ih (by simpa using h)
    · simp [skipCount, ht]

/-- C7: on a failed mandatory match, syn_error (identically in the three
variants, shown for the in-range case) appends exactly one diagnostic
tagged with the lookahead token's line, changes nothing else but the
cursor, and — for a stream with non-decreasing line numbers, as the
tokenizer produces — advances the cursor past precisely the tokens of
that line, so parsing resumes at the first token of a later source line
or at end of input. -/
theorem claim_C7 (msg : String) (s : St)
    (h1 : s.pos < s.toks.length)
    (hm : ∀ j, j < s.toks.length → ∀ i, i ≤ j →
      (s.toks.getD i eofTok0).line ≤ (s.toks.getD j eofTok0).line) :
    (syn_error msg s).errors =
      s.errors ++ [((s.toks.getD s.pos eofTok0).line, msg)] ∧
    (syn_error msg s).toks = s.toks ∧
    (syn_error msg s).symtab = s.symtab ∧
    (syn_error msg s).cur_scope = s.cur_scope ∧
    s.pos < (syn_error msg s).pos ∧
    (syn_error msg s).pos ≤ s.toks.length ∧
    (∀ i, s.pos ≤ i → i < (syn_error msg s).pos →
      (s.toks.getD i eofTok0).line = (s.toks.getD s.pos eofTok0).line) ∧
    (∀ i, (syn_error msg s).pos ≤ i → i < s.toks.length →
      (s.toks.getD s.pos eofTok0).line < (s.toks.getD i eofTok0).line) ∧
    m2_syn_error msg s = syn_error msg s ∧
    sx_syn_error msg s = syn_error msg s := by
  have hlen : (s.toks.drop s.pos).length = s.toks.length - s.pos := by simp
  have hse : syn_error msg s =
      { s with
          errors := s.errors ++ [((s.toks.getD s.pos eofTok0).line, msg)],
          pos := s.pos +
            skipCount (s.toks.getD s.pos eofTok0).line (s.toks.drop s.pos) } := by
    simp [syn_error, skip_line_tokens, h1]
  have hcpos : 0 < skipCount (s.toks.getD s.pos eofTok0).line (s.toks.drop s.pos) := by
    apply skipCount_pos _ _ eofTok0
    · omega
    · rw [getD_drop_tok]
      simp
  have hcle : skipCount (s.toks.getD s.pos eofTok0).line (s.toks.drop s.pos) ≤
      s.toks.length - s.pos := by
    have := skipCount_le (s.toks.getD s.pos eofTok0).line (s.toks.drop s.pos)
    omega
  refine ⟨by rw [hse], by rw [hse], by rw [hse], by rw [hse], ?_, ?_, ?_, ?_, ?_, ?_⟩
  · rw [hse]
    simpa using hcpos
  · rw [hse]
    simp only []
    omega
  · intro i hi1 hi2
    rw [hse] at hi2
    simp only [] at hi2
    have hk : i - s.pos <
        skipCount (s.toks.getD s.pos eofTok0).line (s.toks.drop s.pos) := by omega
    have hr := skipCount_run (s.toks.getD s.pos eofTok0).line
      (s.toks.drop s.pos) (i - s.pos) eofTok0 hk
    rw [getD_drop_tok] at hr
    have hpi : s.pos + (i - s.pos) = i := by omega
    rwa [hpi] at hr
  · intro i hi1 hi2
    rw [hse] at hi1
    simp only [] at hi1
    have hcl : s.pos +
        skipCount (s.toks.getD s.pos eofTok0).line (s.toks.drop s.pos) <
        s.toks.length := by omega
    have hstop := skipCount_stop (s.toks.getD s.pos eofTok0).line
      (s.toks.drop s.pos) eofTok0 (by omega)
    rw [getD_drop_tok] at hstop
    have hge := hm (s.pos +
        skipCount (s.toks.getD s.pos eofTok0).line (s.toks.drop s.pos)) hcl s.pos
      (by omega)
    have hlt : (s.toks.getD s.pos eofTok0).line <
        (s.toks.getD (s.pos +
          skipCount (s.toks.getD s.pos eofTok0).line (s.toks.drop s.pos)) eofTok0).line := by
      omega
    have hmono := hm i hi2 (s.pos +
        skipCount (s.toks.getD s.pos eofTok0).line (s.toks.drop s.pos)) hi1
    omega
  · have ht : s.toks.getD s.pos eofTok9 = s.toks.getD s.pos eofTok0 :=
      getD_default_tok s.toks s.pos eofTok9 eofTok0 h1
    simp [m2_syn_error, syn_error, h1, ht]
  · have ht : s.toks.getD s.pos eofTok9 = s.toks.getD s.pos eofTok0 :=
      getD_default_tok s.toks s.pos eofTok9 eofTok0 h1
    simp [sx_syn_error, sx_LA, syn_error, h1, ht]

theorem claim_C7_witness :
    (syn_error "Semicolon expected" stC7).errors = [(1, "Semicolon expected")] ∧
    (syn_error "Semicolon expected" stC7).pos = 2 := by
  have h := claim_C7 "Semicolon expected" stC7 (by decide) (by decide)
  exact ⟨by simpa using h.1, by decide⟩

lemma load_loop_closed (ls : List String) (acc : List Tok)
    (h : acc.length + ls.length ≤ MAXTOK) :
    load_loop ls acc = acc ++ ls.filterMap parse_row := by
  induction ls generalizing acc with
  | nil => simp [load_loop]
  | cons l ls ih =>
    cases hp : parse_row l with
    | none =>
      simp only [load_loop, hp, List.filterMap_cons]
      exact ih acc (by simp at h; omega)
    | some t =>
      have hcap : ¬ MAXTOK ≤ acc.length := by simp at h; omega
      simp only [load_loop, hp, List.filterMap_cons, if_neg hcap]
      rw [ih (acc ++ [t]) (by simp at h ⊢; omega)]
      simp

/-- C8 (as amended): the semantic_analyser.c loader always discards the
first line of the file as a header (the empty file fails to load); among
the remaining lines, every row whose fields parse as (kind, lexeme,
integer line number) is loaded as a token in file order, and every other
row is skipped — so a file with no header line loses its first token
row. -/
theorem claim_C8 (hdr : String) (rows : List String) (h : rows.length ≤ MAXTOK) :
    load_tokens (hdr :: rows) = some (rows.filterMap parse_row) ∧
    load_tokens [] = none := by
  constructor
  · simp only [load_tokens]
    rw [load_loop_closed rows [] (by simpa using h)]
    simp
  · rfl

theorem claim_C8_witness :
    load_tokens ["Token\tLexeme\tLine No", "INT int 1", "oops"] =
      some [⟨"INT", "int", 1⟩] ∧
    load_tokens [] = none := by
  have h := claim_C8 "Token\tLexeme\tLine No" ["INT int 1", "oops"] (by decide)
  exact ⟨by rw [h.1]; rfl, h.2⟩

/-- C8 counterexample: "INT int 1" is a valid three-field token row, yet
a file consisting of that single row with no header line loads as an
empty token stream — the first token row is lost, contradicting the
claim that no token row is lost when the file has no header line. -/
theorem claim_C8_cex :
    parse_row "INT int 1" = some ⟨"INT", "int", 1⟩ ∧
    load_tokens ["INT int 1"] = some [] ∧
    load_tokens ["INT int 1"] ≠ some [⟨"INT", "int", 1⟩] := by
  refine ⟨by rfl, by rfl, by decide⟩

lemma scan_string_go_unterminated_aux (start_line : Int) (n : Nat) :
    ∀ cs : List Char, cs.length ≤ n → ∀ buf : List Char,
      unterminated_string cs = true →
      (scan_string_go start_line cs buf).1 = none ∧
      (scan_string_go start_line cs buf).2.1 =
        [(start_line, "String constants exceed line")] := by
  induction n with
  | zero =>
    intro cs hcs buf _
    have : cs = [] := List.length_eq_zero.1 (by omega)
    subst this
    simp [scan_string_go]
  | succ n ih =>
    intro cs hcs buf h
    match cs with
    | [] => simp [scan_string_go]
    | c :: rest =>
      rw [unterminated_string.eq_def] at h
      rw [scan_string_go.eq_def]
      simp only [] at h ⊢
      by_cases h1 : c = '\n'
      · simp [h1]
      · by_cases h2 : c = '"'
        · simp [h1, h2] at h
        · by_cases h3 : c = '\\'
          · subst h3
            simp only [if_neg h1, if_neg h2, if_pos rfl] at h ⊢
            match rest with
            | [] => simp
            | e :: rest2 =>
              by_cases h4 : e = '\n'
              · simp [h4]
              · simp only [if_neg h4] at h ⊢
                exact ih rest2 (by simp at hcs; omega)
                  (if buf.length < 1022 then e :: '\\' :: buf else buf) h
          · simp only [if_neg h1, if_neg h2, if_neg h3] at h ⊢
            exact ih rest (by simp at hcs; omega)
              (if buf.length < 1023 then c :: buf else buf) h

lemma scan_string_go_unterminated (start_line : Int) (cs : List Char) (buf : List Char)
    (h : unterminated_string cs = true) :
    (scan_string_go start_line cs buf).1 = none ∧
    (scan_string_go start_line cs buf).2.1 =
      [(start_line, "String constants exceed line")] :=
  scan_string_go_unterminated_aux start_line cs.length cs le_rfl buf h

/-- C9: whenever the characters after a string literal's opening quote
reach end-of-line or end-of-input before an (unescaped) closing quote,
scan_string emits the single diagnostic "String constants exceed line"
at the line the literal started on and produces no token for the
partial literal. -/
theorem claim_C9 (start_line : Int) (cs : List Char)
    (h : unterminated_string cs = true) :
    (scan_string start_line cs).1 = none ∧
    (scan_string start_line cs).2.1 =
      [(start_line, "String constants exceed line")] :=
  scan_string_go_unterminated start_line cs [] h

theorem claim_C9_witness :
    (scan_string 7 "abc".toList).1 = none ∧
    (scan_string 7 "abc".toList).2.1 = [(7, "String constants exceed line")] :=
  claim_C9 7 "abc".toList (by decide)

/-- C10: at or past the end of the token stream LA and consume are total
in all three variants, returning the fabricated EOF sentinel (line 0 in
semantic_analyser.c, line 999999 in sematic_analyser.c and
syntax_analyser.c) without advancing, and a syntax diagnostic issued
there is tagged with the sentinel's fabricated line number. -/
theorem claim_C10 (msg : String) (s : St) (h : s.toks.length ≤ s.pos) :
    LA s = eofTok0 ∧ consume s = (eofTok0, s) ∧
    syn_error msg s = { s with errors := s.errors ++ [(0, msg)] } ∧
    m2_LA s = eofTok9 ∧ m2_consume s = (eofTok9, s) ∧
    m2_syn_error msg s = { s with errors := s.errors ++ [(999999, msg)] } ∧
    sx_LA s = eofTok9 ∧ sx_consume s = (eofTok9, s) ∧
    sx_syn_error msg s = { s with errors := s.errors ++ [(999999, msg)] } := by
  have hnot : ¬ s.pos < s.toks.length := by omega
  have hdrop : s.toks.drop s.pos = [] := List.drop_eq_nil_of_le h
  refine ⟨by simp [LA, hnot], by simp [consume, LA, hnot], ?_,
    by simp [m2_LA, hnot], by simp [m2_consume, m2_LA, hnot], ?_,
    by simp [sx_LA, hnot], by simp [sx_consume, sx_LA, hnot], ?_⟩ <;>
    simp [syn_error, m2_syn_error, sx_syn_error, sx_LA, skip_line_tokens, hnot, hdrop,
      skipCount, eofTok0, eofTok9]

theorem claim_C10_witness :
    LA (initSt []) = eofTok0 ∧
    syn_error "Semicolon expected" (initSt []) =
      { initSt [] with errors := [(0, "Semicolon expected")] } ∧
    m2_syn_error "Semicolon expected" (initSt []) =
      { initSt [] with errors := [(999999, "Semicolon expected")] } := by
  have h := claim_C10 "Semicolon expected" (initSt []) (by decide)
  exact ⟨h.1, by simpa using h.2.2.1, by simpa using h.2.2.2.2.2.1⟩
